import Mathlib

/-!
Verification development for the medlab-sim repository.

The repository contains two React "virtual lab" simulations:

* `src/unnamed/part_000` — a 2D blood-smear-preparation simulation.  Its
  procedure engine is embedded below as pure functions over `SimState`
  (`handleDrop`, `handleDragStart`, `handleCreateSmear`, `handleAction`,
  `resetSimulation`, plus the inline view handlers with their render-time
  guards), and as a small timed machine `SMachine` that accounts for the
  `setTimeout`-based delayed advances (1500 ms), feedback clears (3000 ms)
  and the auto-advance effect (2000 ms dwell, cancelled by its effect
  cleanup whenever the effect re-runs).
* `src/src/App.js` — a 3D safety/equipment-handling simulation.  Its
  engine is embedded as `Sim3State` / `App3State` with the `PROCEDURE`
  catalog, the pointer/click handlers, and the step-progression effect
  that schedules an 850 ms advance timer capturing the current step.

Presentation-only aspects of the source (rendering, canvas drawing, sound
synthesis, instruction/feedback display strings) are not modelled; the
feedback banner is abstracted to its correctness tag `isCorrectAction`.
React state updates inside one event handler are batched, so each handler
is modelled as a single atomic state transition; `useEffect` bodies run
once after each such transition.
-/

namespace MedlabSim

/-! ### Blood-smear simulation (src/unnamed/part_000): data model -/

/-- One entry of the `labProcedureSteps` catalog (`instruction` display
text omitted; steps without a `tool` field in the source have `tool := none`,
and `null` fields are `none`). -/
structure StepDef where
  id : String
  action : Option String
  tool : Option String
  target : Option String
  nextStep : Option String
deriving Repr, DecidableEq

/-- The `labProcedureSteps` array of the source. -/
def labProcedureSteps : List StepDef := [
  { id := "intro", action := none, tool := none, target := none,
    nextStep := some "gather_equipment" },
  { id := "gather_equipment", action := some "pick_up_tool", tool := none,
    target := some "alcohol_swab", nextStep := some "clean_finger" },
  { id := "clean_finger", action := some "use_tool_on_target", tool := some "alcohol_swab",
    target := some "finger", nextStep := some "prick_finger" },
  { id := "prick_finger", action := some "pick_up_tool", tool := none,
    target := some "lancet", nextStep := some "apply_lancet" },
  { id := "apply_lancet", action := some "use_tool_on_target", tool := some "lancet",
    target := some "finger", nextStep := some "wipe_first_drop" },
  { id := "wipe_first_drop", action := some "pick_up_tool", tool := none,
    target := some "alcohol_swab", nextStep := some "wipe_blood" },
  { id := "wipe_blood", action := some "use_tool_on_target", tool := some "alcohol_swab",
    target := some "blood_drop", nextStep := some "wait_for_second_drop" },
  { id := "wait_for_second_drop", action := some "auto_advance_blood_drop", tool := none,
    target := none, nextStep := some "collect_second_drop" },
  { id := "collect_second_drop", action := some "pick_up_tool", tool := none,
    target := some "clean_slide", nextStep := some "collect_blood_on_slide" },
  { id := "collect_blood_on_slide", action := some "use_tool_on_target", tool := some "clean_slide",
    target := some "blood_drop", nextStep := some "prepare_smear" },
  { id := "prepare_smear", action := some "pick_up_tool", tool := none,
    target := some "spreader_slide", nextStep := some "perform_smear" },
  { id := "perform_smear", action := some "click_create_smear", tool := none,
    target := some "create_smear_button", nextStep := some "air_dry" },
  { id := "air_dry", action := some "next_step_button", tool := none,
    target := some "next_button", nextStep := some "microscope_observation" },
  { id := "microscope_observation", action := some "view_microscope", tool := none,
    target := some "microscope_icon", nextStep := some "procedure_complete" },
  { id := "procedure_complete", action := some "next_step_button", tool := none,
    target := some "next_button", nextStep := some "video_demonstration" },
  { id := "video_demonstration", action := some "next_step_button", tool := none,
    target := some "next_button", nextStep := some "mcq_challenge" },
  { id := "mcq_challenge", action := some "mcq_handled_internally", tool := none,
    target := none, nextStep := some "final_completion" },
  { id := "final_completion", action := none, tool := none, target := none,
    nextStep := none }
]

/-- The React state of the smear simulation.  `feedbackMessage` is
abstracted to its correctness tag `isCorrectAction` (`null` = `none`);
the canvas refs and sound synths are presentation-only and omitted. -/
structure SimState where
  currentStep : Nat
  score : Nat
  isCorrectAction : Option Bool
  activeTool : Option String
  bloodDropVisible : Bool
  slideHasBlood : Bool
  smearQuality : Option String
  showMicroscopeView : Bool
deriving Repr, DecidableEq

/-- The `useState` initial values of the smear simulation. -/
def initSimState : SimState :=
  { currentStep := 0, score := 0, isCorrectAction := none, activeTool := none,
    bloodDropVisible := false, slideHasBlood := false, smearQuality := none,
    showMicroscopeView := false }

/-- The two kinds of `setTimeout` callback the smear handlers schedule:
`advance` (`setCurrentStep(prev => prev + 1)` plus feedback clear, 1500 ms
after a success, 2000 ms after the quiz) and `clear` (feedback clear only,
3000 ms after a rejection). -/
inductive TimerAct
  | advance
  | clear
deriving Repr, DecidableEq

/-- Effect of a fired `setTimeout` callback on the simulation state. -/
def fireTimerAct : TimerAct → SimState → SimState
  | TimerAct.advance, s => { s with currentStep := s.currentStep + 1, isCorrectAction := none }
  | TimerAct.clear, s => { s with isCorrectAction := none }

/-! ### Blood-smear simulation: event handlers

Each handler returns the post-event state together with the list of
`(delay, callback)` pairs it passed to `setTimeout`.  Handlers that read
`labProcedureSteps[currentStep]` without optional chaining would throw on
an out-of-range index; this is modelled by returning `none`. -/

/-- `handleDrop(targetId)`: validates the drop of the active tool against
the current step and applies the per-step flag/score mutations. -/
def handleDrop (targetId : String) (s : SimState) :
    Option (SimState × List (Nat × TimerAct)) :=
  -- entry: clear previous feedback immediately
  let s0 : SimState := { s with isCorrectAction := none }
  match s0.activeTool with
  | none =>
      -- "Please pick up a tool first."
      some ({ s0 with isCorrectAction := some false }, [(3000, TimerAct.clear)])
  | some toolId =>
      match labProcedureSteps[s0.currentStep]? with
      | none => none
      | some cp =>
          if cp.action = some "use_tool_on_target" ∧ cp.tool = some toolId ∧
              cp.target = some targetId then
            if cp.id = "clean_finger" then
              some ({ s0 with
                  activeTool := none, score := s0.score + 10,
                  isCorrectAction := some true }, [(1500, TimerAct.advance)])
            else if cp.id = "apply_lancet" then
              some ({ s0 with
                  bloodDropVisible := true, activeTool := none,
                  score := s0.score + 20, isCorrectAction := some true },
                [(1500, TimerAct.advance)])
            else if cp.id = "wipe_blood" then
              if s0.bloodDropVisible then
                some ({ s0 with
                    bloodDropVisible := false, activeTool := none,
                    score := s0.score + 10, isCorrectAction := some true },
                  [(1500, TimerAct.advance)])
              else
                some ({ s0 with activeTool := none, isCorrectAction := some false },
                  [(3000, TimerAct.clear)])
            else if cp.id = "collect_blood_on_slide" then
              if s0.bloodDropVisible then
                some ({ s0 with
                    bloodDropVisible := false, slideHasBlood := true,
                    activeTool := none, score := s0.score + 20,
                    isCorrectAction := some true }, [(1500, TimerAct.advance)])
              else
                some ({ s0 with activeTool := none, isCorrectAction := some false },
                  [(3000, TimerAct.clear)])
            else
              -- default: "Invalid action for this specific step."
              some ({ s0 with activeTool := none, isCorrectAction := some false },
                [(3000, TimerAct.clear)])
          else
            -- "Incorrect action or target for this step."
            some ({ s0 with activeTool := none, isCorrectAction := some false },
              [(3000, TimerAct.clear)])

/-- `handleDragStart(toolId)`: only allows the drag (setting `activeTool`)
if it is the correct tool for a `use_tool_on_target` step (optional
chaining in the source makes the out-of-range case take the reject path). -/
def handleDragStart (toolId : String) (s : SimState) :
    SimState × List (Nat × TimerAct) :=
  let s0 : SimState := { s with isCorrectAction := none }
  if (labProcedureSteps[s0.currentStep]?).map StepDef.tool = some (some toolId) ∧
      (labProcedureSteps[s0.currentStep]?).map StepDef.action =
        some (some "use_tool_on_target") then
    ({ s0 with activeTool := some toolId }, [])
  else
    ({ s0 with isCorrectAction := some false }, [(3000, TimerAct.clear)])

/-- `handleCreateSmear()`: creates a (hard-coded `'good'`) smear when the
spreader slide is active, blood is on the slide, and the current step is
`perform_smear`; otherwise rejects without touching `activeTool`. -/
def handleCreateSmear (s : SimState) : SimState × List (Nat × TimerAct) :=
  let s0 : SimState := { s with isCorrectAction := none }
  if s0.activeTool = some "spreader_slide" ∧ s0.slideHasBlood = true ∧
      (labProcedureSteps[s0.currentStep]?).map StepDef.id = some "perform_smear" then
    ({ s0 with
        smearQuality := some "good", score := s0.score + 30,
        isCorrectAction := some true, activeTool := none },
      [(1500, TimerAct.advance)])
  else
    ({ s0 with isCorrectAction := some false }, [(3000, TimerAct.clear)])

/-- `handleAction(objectId)`: general click handler dispatching on the
current step's `action`.  Successful actions schedule the 1500 ms delayed
advance and (per the source's trailing `if`) write no feedback; rejected
actions write incorrect feedback and schedule the 3000 ms clear.  The
`view_microscope`, `click_create_smear` and `mcq_handled_internally`
branches bypass the trailing feedback logic. -/
def handleAction (objectId : Option String) (s : SimState) :
    Option (SimState × List (Nat × TimerAct)) :=
  let s0 : SimState := { s with isCorrectAction := none }
  match labProcedureSteps[s0.currentStep]? with
  | none => none
  | some cp =>
      if cp.action = some "pick_up_tool" then
        if objectId = cp.target then
          some ({ s0 with activeTool := objectId }, [(1500, TimerAct.advance)])
        else
          some ({ s0 with isCorrectAction := some false }, [(3000, TimerAct.clear)])
      else if cp.action = some "next_step_button" then
        if objectId = some "next_button" then
          some (s0, [(1500, TimerAct.advance)])
        else
          some ({ s0 with isCorrectAction := some false }, [(3000, TimerAct.clear)])
      else if cp.action = some "auto_advance_blood_drop" then
        if cp.id = "wait_for_second_drop" then
          some ({ s0 with bloodDropVisible := true }, [(1500, TimerAct.advance)])
        else
          some ({ s0 with isCorrectAction := some false }, [(3000, TimerAct.clear)])
      else if cp.action = some "click_create_smear" then
        if objectId = some "create_smear_button" then
          some (handleCreateSmear s0)
        else
          some (s0, [])
      else if cp.action = some "view_microscope" then
        if objectId = some "microscope_icon" then
          some ({ s0 with showMicroscopeView := true }, [])
        else
          some (s0, [])
      else if cp.action = some "mcq_handled_internally" then
        some (s0, [])
      else
        -- default: "Invalid action for this step."
        some ({ s0 with isCorrectAction := some false }, [(3000, TimerAct.clear)])

/-- `resetSimulation()`: restores every state field to its initial value
(the canvas clears are presentation-only).  It does not cancel any
pending `setTimeout`. -/
def resetSimulation (_s : SimState) : SimState :=
  { currentStep := 0, score := 0, isCorrectAction := none, activeTool := none,
    bloodDropVisible := false, slideHasBlood := false, smearQuality := none,
    showMicroscopeView := false }

/-- The intro-screen "Start Simulation" button (rendered only when
`currentStep === 0`): `setCurrentStep(1)`. -/
def startSimulationClick (s : SimState) : SimState :=
  if s.currentStep = 0 then { s with currentStep := 1 } else s

/-- The microscope view's "Close View & Finish" button (rendered only
while `showMicroscopeView`): hides the view and advances the step. -/
def closeMicroscopeClick (s : SimState) : SimState :=
  if s.showMicroscopeView then
    { s with showMicroscopeView := false, currentStep := s.currentStep + 1 }
  else s

/-- `onQuizComplete(isAnswerCorrect)` (the MCQ screen is rendered only at
the `mcq_challenge` step): award 50 points on a correct answer, set the
feedback tag, and schedule a 2000 ms delayed advance. -/
def onQuizComplete (isAnswerCorrect : Bool) (s : SimState) :
    SimState × List (Nat × TimerAct) :=
  if (labProcedureSteps[s.currentStep]?).map StepDef.id = some "mcq_challenge" then
    if isAnswerCorrect then
      ({ s with score := s.score + 50, isCorrectAction := some true },
        [(2000, TimerAct.advance)])
    else
      ({ s with isCorrectAction := some false }, [(2000, TimerAct.advance)])
  else (s, [])

/-! ### Blood-smear simulation: event-and-timer machine -/

/-- The interaction events of the smear simulation (normalized events at
the Interaction Adapter boundary, plus the explicit reset operation). -/
inductive SEvent
  | dragStart (toolId : String)
  | drop (targetId : String)
  | click (objectId : String)
  | startSim
  | closeMicroscope
  | quizComplete (correct : Bool)
  | reset
deriving Repr, DecidableEq

/-- Process one interaction event with the corresponding handler. -/
def processEvent : SEvent → SimState → Option (SimState × List (Nat × TimerAct))
  | SEvent.dragStart t, s => some (handleDragStart t s)
  | SEvent.drop t, s => handleDrop t s
  | SEvent.click o, s => handleAction (some o) s
  | SEvent.startSim, s => some (startSimulationClick s, [])
  | SEvent.closeMicroscope, s => some (closeMicroscopeClick s, [])
  | SEvent.quizComplete b, s => some (onQuizComplete b s)
  | SEvent.reset, s => some (resetSimulation s, [])

/-- Whether the auto-advance effect's condition
(`currentProcedure && currentProcedure.action === 'auto_advance_blood_drop'`)
holds in a state. -/
def stepIsAuto (s : SimState) : Bool :=
  match labProcedureSteps[s.currentStep]? with
  | some cp => cp.action = some "auto_advance_blood_drop"
  | none => false

/-- The auto-advance effect re-runs after every render (its dependency
array contains the per-render `labProcedureSteps` value), cancelling the
previous dwell timer via its cleanup and scheduling a fresh 2000 ms one
whenever the current step is the auto-advance step. -/
def autoEffect (s : SimState) (t : Nat) : Option Nat :=
  if stepIsAuto s then some (t + 2000) else none

/-- The smear simulation together with its pending timers: `timers` holds
the never-cancelled `setTimeout` deadlines, `autoTimer` the (cleanup-
managed, hence at most one) auto-advance dwell deadline. -/
structure SMachine where
  sim : SimState
  now : Nat
  timers : List (Nat × TimerAct)
  autoTimer : Option Nat
deriving Repr, DecidableEq

/-- The machine at session start. -/
def initSMachine : SMachine :=
  { sim := initSimState, now := 0, timers := [], autoTimer := none }

/-- Process a user event at time `t`: run the handler, append its
`setTimeout`s as absolute deadlines, and re-run the auto-advance effect. -/
def applyUser (t : Nat) (e : SEvent) (m : SMachine) : Option SMachine :=
  (processEvent e m.sim).map fun p =>
    { sim := p.1, now := t,
      timers := m.timers ++ p.2.map (fun q => (t + q.1, q.2)),
      autoTimer := autoEffect p.1 t }

/-- Remove the first pending timer with the minimal deadline. -/
def extractEarliest : List (Nat × TimerAct) →
    Option ((Nat × TimerAct) × List (Nat × TimerAct))
  | [] => none
  | p :: rest =>
    match extractEarliest rest with
    | none => some (p, rest)
    | some (q, rest') => if p.1 ≤ q.1 then some (p, rest) else some (q, p :: rest')

/-- Fire the auto-advance dwell timer at its deadline `d`: the effect body
calls `handleAction(currentProcedure.target)`, after which the effect
re-runs (rescheduling or clearing the dwell timer). -/
def fireAuto (d : Nat) (m : SMachine) : Option SMachine :=
  match labProcedureSteps[m.sim.currentStep]? with
  | none => none
  | some cp =>
      (handleAction cp.target m.sim).map fun p =>
        { sim := p.1, now := d,
          timers := m.timers ++ p.2.map (fun q => (d + q.1, q.2)),
          autoTimer := autoEffect p.1 d }

/-- Fire a pending `setTimeout` at deadline `d`, then re-run the
auto-advance effect (every state write triggers a render). -/
def fireListTimer (d : Nat) (a : TimerAct) (rest : List (Nat × TimerAct))
    (m : SMachine) : SMachine :=
  let s' := fireTimerAct a m.sim
  { sim := s', now := d, timers := rest, autoTimer := autoEffect s' d }

/-- Fire the earliest pending timer (the JS event loop runs expired
timeouts in deadline order; a `setTimeout` scheduled inside a handler
precedes the effect-scheduled dwell timer on equal deadlines). -/
def fireNext (m : SMachine) : Option SMachine :=
  match extractEarliest m.timers, m.autoTimer with
  | some (p, rest), some d' =>
      if p.1 ≤ d' then some (fireListTimer p.1 p.2 rest m) else fireAuto d' m
  | some (p, rest), none => some (fireListTimer p.1 p.2 rest m)
  | none, some d' => fireAuto d' m
  | none, none => none

/-- One step of an execution trace: a user event at a given time, or the
firing of the earliest pending timer. -/
inductive TStep
  | ev (t : Nat) (e : SEvent)
  | fire
deriving Repr, DecidableEq

/-- Run a trace of events and timer firings. -/
def runTrace : List TStep → SMachine → Option SMachine
  | [], m => some m
  | TStep.ev t e :: rest, m => (applyUser t e m).bind (runTrace rest)
  | TStep.fire :: rest, m => (fireNext m).bind (runTrace rest)

/-! ### 3D safety simulation (src/src/App.js): data model -/

/-- The `simState` object of the 3D simulation (the geometric fields
`dragOffset` and `selectedObj` are presentation-only and omitted). -/
structure Sim3State where
  wearingLabCoat : Bool
  wearingGoggles : Bool
  balanceCalibrated : Bool
  cylinderPicked : Bool
  cylinderFilled : Bool
  cylinderAtBench : Bool
  cylinderWeighed : Bool
  wasteDisposed : Bool
  dragging : Option String
deriving Repr, DecidableEq

/-- One entry of the `PROCEDURE` array (`instruction` display text
omitted). -/
structure Step3 where
  id : Nat
  title : String
  validate : Sim3State → Bool
  error : String

/-- The `PROCEDURE` array of the source. -/
def PROCEDURE : List Step3 := [
  { id := 0, title := "Wear Lab Coat and Safety Goggles",
    validate := fun state => state.wearingLabCoat && state.wearingGoggles,
    error := "You must wear your lab coat and goggles first." },
  { id := 1, title := "Calibrate Analytical Balance",
    validate := fun state => state.balanceCalibrated,
    error := "Calibrate the analytical balance first by clicking it." },
  { id := 2, title := "Measure 50ml of Water",
    validate := fun state => state.cylinderFilled && state.cylinderAtBench,
    error := "You must use the graduated cylinder to measure water, fill it at the sink, and place it on the bench." },
  { id := 3, title := "Weigh the Filled Cylinder",
    validate := fun state => state.cylinderWeighed,
    error := "Weigh the filled graduated cylinder on the analytical balance." },
  { id := 4, title := "Dispose of Waste Properly",
    validate := fun state => state.wasteDisposed,
    error := "Dispose of chemical waste before completing the procedure." }
]

/-- The React state of the 3D simulation: `sim` (`simState`),
`currentStep`, `feedback`, `showModal`, plus `pending`, the FIFO of
850 ms advance timers scheduled by the step-progression effect; every
such timer captures the `currentStep` value current when it was
scheduled (all delays are equal, so scheduling order is firing order). -/
structure App3State where
  sim : Sim3State
  currentStep : Nat
  feedback : String
  showModal : Bool
  pending : List Nat
deriving Repr, DecidableEq

/-- The 3D simulation at session start. -/
def init3 : App3State :=
  { sim := { wearingLabCoat := false, wearingGoggles := false,
             balanceCalibrated := false, cylinderPicked := false,
             cylinderFilled := false, cylinderAtBench := false,
             cylinderWeighed := false, wasteDisposed := false,
             dragging := none },
    currentStep := 0, feedback := "", showModal := false, pending := [] }

/-! ### 3D safety simulation: handlers

Each handler returns the post-event state and whether it called
`setSimState` (the step-progression effect depends on `[simState]` and
therefore re-runs exactly when `setSimState` was called; the state
updates of one DOM event handler are batched into a single render). -/

/-- `handleWearLabCoat`. -/
def handleWearLabCoat (st : App3State) : App3State × Bool :=
  if st.sim.wearingLabCoat then (st, false)
  else
    ({ st with
        sim := { st.sim with wearingLabCoat := true },
        feedback := "Lab coat worn." }, true)

/-- `handleWearGoggles`. -/
def handleWearGoggles (st : App3State) : App3State × Bool :=
  if st.sim.wearingGoggles then (st, false)
  else
    ({ st with
        sim := { st.sim with wearingGoggles := true },
        feedback := "Safety goggles worn." }, true)

/-- `onPointerDown` with the raycast-picked object name (Interaction
Adapter boundary): starts a drag of the cylinder at steps 2 or 3, or of
the pipette at step 2. -/
def onPointerDown (objName : String) (st : App3State) : App3State × Bool :=
  if st.sim.dragging.isSome then (st, false)
  else if (objName = "cylinder" ∧ (st.currentStep = 2 ∨ st.currentStep = 3)) ∨
      (objName = "pipette" ∧ st.currentStep = 2) then
    ({ st with sim := { st.sim with dragging := some objName } }, true)
  else (st, false)

/-- `onPointerUp` with the geometric proximity outcomes computed at the
Interaction Adapter boundary (`distToSink < 0.55`, the bench box test,
`distToBalance < 0.38`, `distToBin < 0.33`).  The branch conditions read
the render-time (pre-event) `simState` while the functional updates
compose, exactly as in the source. -/
def onPointerUp (nearSink nearBench nearBalance nearBin : Bool)
    (st : App3State) : App3State × Bool :=
  match st.sim.dragging with
  | none => (st, false)
  | some obj =>
      let s0 := st.sim
      let st1 :=
        if obj = "cylinder" then
          let stA :=
            if nearSink ∧ ¬s0.cylinderFilled then
              { st with
                  sim := { st.sim with cylinderFilled := true },
                  feedback := "Cylinder filled with 50ml of water!" }
            else st
          let stB :=
            if s0.cylinderFilled ∧ nearBench then
              { stA with
                  sim := { stA.sim with cylinderAtBench := true },
                  feedback := "Cylinder placed on the bench." }
            else stA
          let stC :=
            if s0.cylinderFilled ∧ nearBalance then
              { stB with
                  sim := { stB.sim with cylinderWeighed := true },
                  feedback := "Cylinder weighed! Display: 53.4g" }
            else stB
          if nearBin ∧ s0.cylinderFilled then
            { stC with
                sim := { stC.sim with
                    wasteDisposed := true, cylinderFilled := false,
                    cylinderAtBench := false, cylinderWeighed := false },
                feedback := "Waste properly disposed!" }
          else stC
        else if obj = "pipette" then
          { st with feedback := "Pipette interaction is not required in this step." }
        else st
      ({ st1 with sim := { st1.sim with dragging := none } }, true)

/-- `onBalanceClick` with the raycast hitting the balance: calibrates at
step 1, or weighs the filled cylinder at step 3. -/
def onBalanceClick (st : App3State) : App3State × Bool :=
  if st.currentStep = 1 ∧ ¬st.sim.balanceCalibrated then
    ({ st with
        sim := { st.sim with balanceCalibrated := true },
        feedback := "Balance calibrated (zeroed)!" }, true)
  else if st.sim.cylinderFilled ∧ st.currentStep = 3 then
    ({ st with
        sim := { st.sim with cylinderWeighed := true },
        feedback := "Cylinder weighed! Display: 53.4g" }, true)
  else (st, false)

/-- The step-progression effect (deps `[simState]`): reads
`PROCEDURE[currentStep]` (throwing on an out-of-range index, modelled by
`none`) and, when the validator holds, schedules an 850 ms timer that
captures the current `currentStep`. -/
def runEffect3 (st : App3State) : Option App3State :=
  match PROCEDURE[st.currentStep]? with
  | none => none
  | some step =>
      if step.validate st.sim then
        some { st with pending := st.pending ++ [st.currentStep] }
      else some st

/-- The interaction events of the 3D simulation. -/
inductive E3
  | wearLabCoat
  | wearGoggles
  | pointerDown (objName : String)
  | pointerUp (nearSink nearBench nearBalance nearBin : Bool)
  | balanceClick
deriving Repr, DecidableEq

/-- Process one 3D interaction event: run its handler, then run the
step-progression effect if `setSimState` was called. -/
def process3 (e : E3) (st : App3State) : Option App3State :=
  let p :=
    match e with
    | E3.wearLabCoat => handleWearLabCoat st
    | E3.wearGoggles => handleWearGoggles st
    | E3.pointerDown o => onPointerDown o st
    | E3.pointerUp a b c d => onPointerUp a b c d st
    | E3.balanceClick => onBalanceClick st
  if p.2 then runEffect3 p.1 else some p.1

/-- Fire the oldest pending advance timer.  Its closure captured
`currentStep` at scheduling time: if the captured value is below the last
step index it increments the (current) step and clears feedback,
otherwise it shows the completion feedback and modal.  `setCurrentStep`
does not change `simState`, so the effect does not re-run. -/
def fire3 (st : App3State) : Option App3State :=
  match st.pending with
  | [] => none
  | c :: rest =>
      if c < PROCEDURE.length - 1 then
        some { st with currentStep := st.currentStep + 1, feedback := "", pending := rest }
      else
        some { st with
            feedback := "Congratulations! You have completed all safety & handling steps.",
            showModal := true, pending := rest }

/-- One step of a 3D execution trace. -/
inductive T3Step
  | ev (e : E3)
  | fire
deriving Repr, DecidableEq

/-- Run a 3D trace of events and timer firings. -/
def run3 : List T3Step → App3State → Option App3State
  | [], st => some st
  | T3Step.ev e :: rest, st => (process3 e st).bind (run3 rest)
  | T3Step.fire :: rest, st => (fire3 st).bind (run3 rest)

/-! ### Helper lemmas: blood-smear handlers and machine -/

set_option maxHeartbeats 1000000

/-- Frame properties of `handleDrop`: the step pointer, microscope view
and smear quality are untouched, `activeTool` is always cleared, the
score never decreases, blood on the slide is never removed, and exactly
one timeout is scheduled (a 1500 ms advance or a 3000 ms clear). -/
theorem handleDrop_frame (targetId : String) (s s' : SimState)
    (ts : List (Nat × TimerAct)) (h : handleDrop targetId s = some (s', ts)) :
    s'.currentStep = s.currentStep ∧
    s'.showMicroscopeView = s.showMicroscopeView ∧
    s'.smearQuality = s.smearQuality ∧
    s'.activeTool = none ∧
    s.score ≤ s'.score ∧
    (s.slideHasBlood = true → s'.slideHasBlood = true) ∧
    (ts = [(1500, TimerAct.advance)] ∨ ts = [(3000, TimerAct.clear)]) ∧
    (s'.isCorrectAction = some true → ts = [(1500, TimerAct.advance)]) := by
  simp only [handleDrop] at h
  rcases hA : s.activeTool with _ | toolId <;> simp only [hA] at h
  · simp only [Option.some.injEq, Prod.mk.injEq] at h
    obtain ⟨h1, h2⟩ := h
    subst h1 h2
    simp [hA]
  · rcases hL : labProcedureSteps[s.currentStep]? with _ | cp <;> simp only [hL] at h
    · exact absurd h (by simp)
    · split at h
      all_goals try split at h
      all_goals try split at h
      all_goals try split at h
      all_goals try split at h
      all_goals try split at h
      all_goals
        (simp only [Option.some.injEq, Prod.mk.injEq] at h
         obtain ⟨h1, h2⟩ := h
         subst h1 h2
         simp [Nat.le_add_right])

/-- `handleCreateSmear` when its success condition holds. -/
theorem handleCreateSmear_pos (s : SimState)
    (hc : s.activeTool = some "spreader_slide" ∧ s.slideHasBlood = true ∧
      (labProcedureSteps[s.currentStep]?).map StepDef.id = some "perform_smear") :
    handleCreateSmear s =
      ({ s with
          isCorrectAction := some true, smearQuality := some "good",
          score := s.score + 30, activeTool := none },
        [(1500, TimerAct.advance)]) := by
  simp only [handleCreateSmear]
  rw [if_pos]
  exact hc

/-- `handleCreateSmear` when its success condition fails: it only writes
the incorrect-feedback tag (in particular `activeTool` is untouched). -/
theorem handleCreateSmear_neg (s : SimState)
    (hc : ¬ (s.activeTool = some "spreader_slide" ∧ s.slideHasBlood = true ∧
      (labProcedureSteps[s.currentStep]?).map StepDef.id = some "perform_smear")) :
    handleCreateSmear s =
      ({ s with isCorrectAction := some false }, [(3000, TimerAct.clear)]) := by
  simp only [handleCreateSmear]
  rw [if_neg]
  exact hc

/-- Frame properties of `handleCreateSmear`: the step pointer, view flag
and blood flags are untouched, the score never decreases, and the smear
quality is either untouched or set to the hard-coded `'good'`. -/
theorem handleCreateSmear_frame (s : SimState) :
    (handleCreateSmear s).1.currentStep = s.currentStep ∧
    (handleCreateSmear s).1.showMicroscopeView = s.showMicroscopeView ∧
    (handleCreateSmear s).1.bloodDropVisible = s.bloodDropVisible ∧
    (handleCreateSmear s).1.slideHasBlood = s.slideHasBlood ∧
    s.score ≤ (handleCreateSmear s).1.score ∧
    ((handleCreateSmear s).1.smearQuality = s.smearQuality ∨
      (handleCreateSmear s).1.smearQuality = some "good") ∧
    ((handleCreateSmear s).2 = [(1500, TimerAct.advance)] ∨
      (handleCreateSmear s).2 = [(3000, TimerAct.clear)]) := by
  by_cases hc : s.activeTool = some "spreader_slide" ∧ s.slideHasBlood = true ∧
      (labProcedureSteps[s.currentStep]?).map StepDef.id = some "perform_smear"
  · rw [handleCreateSmear_pos s hc]
    simp [Nat.le_add_right]
  · rw [handleCreateSmear_neg s hc]
    simp

/-- `handleDragStart` when its condition fails: only incorrect feedback. -/
theorem handleDragStart_neg (toolId : String) (s : SimState)
    (hc : ¬ ((labProcedureSteps[s.currentStep]?).map StepDef.tool = some (some toolId) ∧
      (labProcedureSteps[s.currentStep]?).map StepDef.action =
        some (some "use_tool_on_target"))) :
    handleDragStart toolId s =
      ({ s with isCorrectAction := some false }, [(3000, TimerAct.clear)]) := by
  simp only [handleDragStart]
  rw [if_neg]
  exact hc

/-- Frame properties of `handleDragStart`: everything except the feedback
tag and `activeTool` is untouched, and no advance is ever scheduled. -/
theorem handleDragStart_frame (toolId : String) (s : SimState) :
    (handleDragStart toolId s).1.currentStep = s.currentStep ∧
    (handleDragStart toolId s).1.score = s.score ∧
    (handleDragStart toolId s).1.bloodDropVisible = s.bloodDropVisible ∧
    (handleDragStart toolId s).1.slideHasBlood = s.slideHasBlood ∧
    (handleDragStart toolId s).1.smearQuality = s.smearQuality ∧
    (handleDragStart toolId s).1.showMicroscopeView = s.showMicroscopeView ∧
    ((handleDragStart toolId s).2 = [] ∨
      (handleDragStart toolId s).2 = [(3000, TimerAct.clear)]) := by
  simp only [handleDragStart]
  split <;> simp

/-- Frame properties of `handleAction`: the step pointer and blood-slide
flag are untouched, the blood drop is never hidden, the score never
decreases, and the smear quality is either untouched or `'good'`. -/
theorem handleAction_frame (objectId : Option String) (s s' : SimState)
    (ts : List (Nat × TimerAct)) (h : handleAction objectId s = some (s', ts)) :
    s'.currentStep = s.currentStep ∧
    s'.slideHasBlood = s.slideHasBlood ∧
    (s'.bloodDropVisible = s.bloodDropVisible ∨ s'.bloodDropVisible = true) ∧
    (s'.smearQuality = s.smearQuality ∨ s'.smearQuality = some "good") ∧
    s.score ≤ s'.score ∧
    (ts = [(1500, TimerAct.advance)] ∨ ts = [(3000, TimerAct.clear)] ∨ ts = []) := by
  simp only [handleAction] at h
  rcases hL : labProcedureSteps[s.currentStep]? with _ | cp <;> simp only [hL] at h
  · exact absurd h (by simp)
  · have hsmear := handleCreateSmear_frame { s with isCorrectAction := none }
    split at h
    all_goals try split at h
    all_goals try split at h
    all_goals try split at h
    all_goals try split at h
    all_goals try split at h
    all_goals simp only [Option.some.injEq, Prod.mk.injEq, Prod.ext_iff] at h
    all_goals obtain ⟨h1, h2⟩ := h
    all_goals
      first
      | (subst h1 h2
         simp [Nat.le_add_right])
      | (try dsimp only at h1 h2
         subst h1
         subst h2
         exact ⟨hsmear.1, hsmear.2.2.2.1, Or.inl hsmear.2.2.1,
           hsmear.2.2.2.2.2.1, hsmear.2.2.2.2.1,
           hsmear.2.2.2.2.2.2.elim Or.inl (fun h' => Or.inr (Or.inl h'))⟩)

/-- Processing `reset` yields the initial state and schedules nothing. -/
theorem processEvent_reset (s : SimState) :
    processEvent SEvent.reset s = some (initSimState, []) := rfl

/-- A non-reset interaction event never decreases the step pointer. -/
theorem processEvent_mono (e : SEvent) (s s' : SimState) (ts : List (Nat × TimerAct))
    (hne : e ≠ SEvent.reset) (h : processEvent e s = some (s', ts)) :
    s.currentStep ≤ s'.currentStep := by
  cases e with
  | dragStart t =>
      simp only [processEvent, Option.some.injEq, Prod.ext_iff] at h
      obtain ⟨h1, -⟩ := h
      rw [← h1]
      exact ((handleDragStart_frame t s).1).ge
  | drop t => exact ((handleDrop_frame t s s' ts h).1).ge
  | click o => exact ((handleAction_frame (some o) s s' ts h).1).ge
  | startSim =>
      simp only [processEvent, Option.some.injEq, Prod.mk.injEq] at h
      obtain ⟨h1, -⟩ := h
      subst h1
      simp only [startSimulationClick]
      split
      · next h0 => rw [h0]; exact Nat.zero_le _
      · exact le_refl _
  | closeMicroscope =>
      simp only [processEvent, Option.some.injEq, Prod.mk.injEq] at h
      obtain ⟨h1, -⟩ := h
      subst h1
      simp only [closeMicroscopeClick]
      split
      · exact Nat.le_succ _
      · exact le_refl _
  | quizComplete b =>
      simp only [processEvent, Option.some.injEq, Prod.ext_iff] at h
      obtain ⟨h1, -⟩ := h
      rw [← h1]
      simp only [onQuizComplete]
      split <;> [skip; exact le_refl _]
      split <;> exact le_refl _
  | reset => exact absurd rfl hne

/-- Processing any interaction event leaves the smear quality untouched,
sets it to the hard-coded `'good'`, or (on reset) returns it to `none`. -/
theorem processEvent_quality (e : SEvent) (s s' : SimState)
    (ts : List (Nat × TimerAct)) (h : processEvent e s = some (s', ts)) :
    s'.smearQuality = s.smearQuality ∨ s'.smearQuality = some "good" ∨
      (e = SEvent.reset ∧ s'.smearQuality = none) := by
  cases e with
  | dragStart t =>
      simp only [processEvent, Option.some.injEq, Prod.ext_iff] at h
      obtain ⟨h1, -⟩ := h
      rw [← h1]
      exact Or.inl (handleDragStart_frame t s).2.2.2.2.1
  | drop t => exact Or.inl (handleDrop_frame t s s' ts h).2.2.1
  | click o =>
      rcases (handleAction_frame (some o) s s' ts h).2.2.2.1 with h' | h'
      · exact Or.inl h'
      · exact Or.inr (Or.inl h')
  | startSim =>
      simp only [processEvent, Option.some.injEq, Prod.mk.injEq] at h
      obtain ⟨h1, -⟩ := h
      subst h1
      simp only [startSimulationClick]
      split <;> exact Or.inl rfl
  | closeMicroscope =>
      simp only [processEvent, Option.some.injEq, Prod.mk.injEq] at h
      obtain ⟨h1, -⟩ := h
      subst h1
      simp only [closeMicroscopeClick]
      split <;> exact Or.inl rfl
  | quizComplete b =>
      simp only [processEvent, Option.some.injEq, Prod.ext_iff] at h
      obtain ⟨h1, -⟩ := h
      rw [← h1]
      simp only [onQuizComplete]
      split <;> [skip; exact Or.inl rfl]
      split <;> exact Or.inl rfl
  | reset =>
      simp only [processEvent, Option.some.injEq, Prod.mk.injEq] at h
      obtain ⟨h1, -⟩ := h
      subst h1
      exact Or.inr (Or.inr ⟨rfl, rfl⟩)

/-- No non-reset interaction event removes blood from the slide. -/
theorem processEvent_slide (e : SEvent) (s s' : SimState)
    (ts : List (Nat × TimerAct)) (hne : e ≠ SEvent.reset)
    (h : processEvent e s = some (s', ts)) (hs : s.slideHasBlood = true) :
    s'.slideHasBlood = true := by
  cases e with
  | dragStart t =>
      simp only [processEvent, Option.some.injEq, Prod.ext_iff] at h
      obtain ⟨h1, -⟩ := h
      rw [← h1, (handleDragStart_frame t s).2.2.2.1]
      exact hs
  | drop t => exact (handleDrop_frame t s s' ts h).2.2.2.2.2.1 hs
  | click o => exact ((handleAction_frame (some o) s s' ts h).2.1).trans hs
  | startSim =>
      simp only [processEvent, Option.some.injEq, Prod.mk.injEq] at h
      obtain ⟨h1, -⟩ := h
      subst h1
      simp only [startSimulationClick]
      split <;> exact hs
  | closeMicroscope =>
      simp only [processEvent, Option.some.injEq, Prod.mk.injEq] at h
      obtain ⟨h1, -⟩ := h
      subst h1
      simp only [closeMicroscopeClick]
      split <;> exact hs
  | quizComplete b =>
      simp only [processEvent, Option.some.injEq, Prod.ext_iff] at h
      obtain ⟨h1, -⟩ := h
      rw [← h1]
      simp only [onQuizComplete]
      split <;> [skip; exact hs]
      split <;> exact hs
  | reset => exact absurd rfl hne

/-- No non-reset, non-drop interaction event hides a visible blood drop. -/
theorem processEvent_blood (e : SEvent) (s s' : SimState)
    (ts : List (Nat × TimerAct)) (hnd : ∀ t, e ≠ SEvent.drop t)
    (hne : e ≠ SEvent.reset) (h : processEvent e s = some (s', ts))
    (hs : s.bloodDropVisible = true) : s'.bloodDropVisible = true := by
  cases e with
  | dragStart t =>
      simp only [processEvent, Option.some.injEq, Prod.ext_iff] at h
      obtain ⟨h1, -⟩ := h
      rw [← h1, (handleDragStart_frame t s).2.2.1]
      exact hs
  | drop t => exact absurd rfl (hnd t)
  | click o =>
      rcases (handleAction_frame (some o) s s' ts h).2.2.1 with h' | h'
      · exact h'.trans hs
      · exact h'
  | startSim =>
      simp only [processEvent, Option.some.injEq, Prod.mk.injEq] at h
      obtain ⟨h1, -⟩ := h
      subst h1
      simp only [startSimulationClick]
      split <;> exact hs
  | closeMicroscope =>
      simp only [processEvent, Option.some.injEq, Prod.mk.injEq] at h
      obtain ⟨h1, -⟩ := h
      subst h1
      simp only [closeMicroscopeClick]
      split <;> exact hs
  | quizComplete b =>
      simp only [processEvent, Option.some.injEq, Prod.ext_iff] at h
      obtain ⟨h1, -⟩ := h
      rw [← h1]
      simp only [onQuizComplete]
      split <;> [skip; exact hs]
      split <;> exact hs
  | reset => exact absurd rfl hne

/-- Eliminate `applyUser`: the new machine state comes from the handler. -/
theorem applyUser_elim (t : Nat) (e : SEvent) (m m' : SMachine)
    (h : applyUser t e m = some m') :
    ∃ ts, processEvent e m.sim = some (m'.sim, ts) := by
  simp only [applyUser, Option.map_eq_some'] at h
  obtain ⟨p, hp, hm⟩ := h
  subst hm
  exact ⟨p.2, hp⟩

/-- Eliminate `fireAuto`: the new machine state comes from `handleAction`. -/
theorem fireAuto_elim (d : Nat) (m m' : SMachine) (h : fireAuto d m = some m') :
    ∃ cp ts, labProcedureSteps[m.sim.currentStep]? = some cp ∧
      handleAction cp.target m.sim = some (m'.sim, ts) := by
  simp only [fireAuto] at h
  rcases hL : labProcedureSteps[m.sim.currentStep]? with _ | cp <;> simp only [hL] at h
  · exact absurd h (by simp)
  · simp only [Option.map_eq_some'] at h
    obtain ⟨p, hp, hm⟩ := h
    subst hm
    exact ⟨cp, p.2, rfl, hp⟩

/-- Firing a pending timer never decreases the step pointer. -/
theorem fireNext_mono (m m' : SMachine) (h : fireNext m = some m') :
    m.sim.currentStep ≤ m'.sim.currentStep := by
  have hlist : ∀ d a rest, m' = fireListTimer d a rest m →
      m.sim.currentStep ≤ m'.sim.currentStep := by
    rintro d a rest rfl
    cases a <;> simp [fireListTimer, fireTimerAct, Nat.le_succ]
  have hauto : ∀ d, fireAuto d m = some m' → m.sim.currentStep ≤ m'.sim.currentStep := by
    intro d hd
    obtain ⟨cp, ts, -, ha⟩ := fireAuto_elim d m m' hd
    exact ((handleAction_frame cp.target m.sim m'.sim ts ha).1).ge
  simp only [fireNext] at h
  split at h
  · split at h
    · exact hlist _ _ _ (Option.some.inj h).symm
    · exact hauto _ h
  · exact hlist _ _ _ (Option.some.inj h).symm
  · exact hauto _ h
  · exact absurd h (by simp)

/-- Firing a pending timer leaves the smear quality untouched or sets it
to `'good'` (timer callbacks themselves never write it; the auto-advance
path goes through `handleAction`). -/
theorem fireNext_quality (m m' : SMachine) (h : fireNext m = some m') :
    m'.sim.smearQuality = m.sim.smearQuality ∨ m'.sim.smearQuality = some "good" := by
  have hlist : ∀ d a rest, m' = fireListTimer d a rest m →
      m'.sim.smearQuality = m.sim.smearQuality := by
    rintro d a rest rfl
    cases a <;> simp [fireListTimer, fireTimerAct]
  have hauto : ∀ d, fireAuto d m = some m' →
      m'.sim.smearQuality = m.sim.smearQuality ∨ m'.sim.smearQuality = some "good" := by
    intro d hd
    obtain ⟨cp, ts, -, ha⟩ := fireAuto_elim d m m' hd
    exact (handleAction_frame cp.target m.sim m'.sim ts ha).2.2.2.1
  simp only [fireNext] at h
  split at h
  · split at h
    · exact Or.inl (hlist _ _ _ (Option.some.inj h).symm)
    · exact hauto _ h
  · exact Or.inl (hlist _ _ _ (Option.some.inj h).symm)
  · exact hauto _ h
  · exact absurd h (by simp)

/-- Step-pointer monotonicity along any reset-free trace. -/
theorem runTrace_mono (tr : List TStep) (m m' : SMachine)
    (hres : ∀ t, TStep.ev t SEvent.reset ∉ tr)
    (h : runTrace tr m = some m') : m.sim.currentStep ≤ m'.sim.currentStep := by
  induction tr generalizing m with
  | nil => simp only [runTrace, Option.some.injEq] at h; rw [h]
  | cons hd tl ih =>
      cases hd with
      | ev t e =>
          simp only [runTrace, Option.bind_eq_some] at h
          obtain ⟨m1, h1, h2⟩ := h
          have hne : e ≠ SEvent.reset := by
            rintro rfl
            exact hres t (List.mem_cons_self _ _)
          obtain ⟨ts, hp⟩ := applyUser_elim t e m m1 h1
          refine (processEvent_mono e m.sim m1.sim ts hne hp).trans ?_
          exact ih m1 (fun t' ht' => hres t' (List.mem_cons_of_mem _ ht')) h2
      | fire =>
          simp only [runTrace, Option.bind_eq_some] at h
          obtain ⟨m1, h1, h2⟩ := h
          refine (fireNext_mono m m1 h1).trans ?_
          exact ih m1 (fun t' ht' => hres t' (List.mem_cons_of_mem _ ht')) h2

/-- The smear-quality invariant `none ∨ 'good'` is preserved along any
trace. -/
theorem runTrace_quality (tr : List TStep) (m m' : SMachine)
    (hm : m.sim.smearQuality = none ∨ m.sim.smearQuality = some "good")
    (h : runTrace tr m = some m') :
    m'.sim.smearQuality = none ∨ m'.sim.smearQuality = some "good" := by
  induction tr generalizing m with
  | nil => simp only [runTrace, Option.some.injEq] at h; rw [← h]; exact hm
  | cons hd tl ih =>
      cases hd with
      | ev t e =>
          simp only [runTrace, Option.bind_eq_some] at h
          obtain ⟨m1, h1, h2⟩ := h
          obtain ⟨ts, hp⟩ := applyUser_elim t e m m1 h1
          refine ih m1 ?_ h2
          rcases processEvent_quality e m.sim m1.sim ts hp with h' | h' | ⟨-, h'⟩
          · rw [h']; exact hm
          · exact Or.inr h'
          · exact Or.inl h'
      | fire =>
          simp only [runTrace, Option.bind_eq_some] at h
          obtain ⟨m1, h1, h2⟩ := h
          refine ih m1 ?_ h2
          rcases fireNext_quality m m1 h1 with h' | h'
          · rw [h']; exact hm
          · exact Or.inr h'

/-! ### Helper lemmas: 3D safety simulation -/

/-- Frame properties shared by every 3D event handler: the step pointer
and the pending-timer queue are untouched, and the four one-way flags
(lab coat, goggles, calibration, waste disposal) are never cleared. -/
def Frame3 (st t : App3State) : Prop :=
  t.currentStep = st.currentStep ∧ t.pending = st.pending ∧
  (st.sim.wearingLabCoat = true → t.sim.wearingLabCoat = true) ∧
  (st.sim.wearingGoggles = true → t.sim.wearingGoggles = true) ∧
  (st.sim.balanceCalibrated = true → t.sim.balanceCalibrated = true) ∧
  (st.sim.wasteDisposed = true → t.sim.wasteDisposed = true)

/-- `handleWearLabCoat` satisfies the shared frame. -/
theorem handleWearLabCoat_frame (st : App3State) :
    Frame3 st (handleWearLabCoat st).1 := by
  simp only [handleWearLabCoat, Frame3]
  split <;> simp

/-- `handleWearGoggles` satisfies the shared frame. -/
theorem handleWearGoggles_frame (st : App3State) :
    Frame3 st (handleWearGoggles st).1 := by
  simp only [handleWearGoggles, Frame3]
  split <;> simp

/-- `onPointerDown` satisfies the shared frame. -/
theorem onPointerDown_frame (o : String) (st : App3State) :
    Frame3 st (onPointerDown o st).1 := by
  simp only [onPointerDown, Frame3]
  split <;> [simp; split <;> simp]

/-- `onPointerUp` satisfies the shared frame. -/
theorem onPointerUp_frame (a b c d : Bool) (st : App3State) :
    Frame3 st (onPointerUp a b c d st).1 := by
  simp only [onPointerUp, Frame3]
  split
  · simp
  · split
    all_goals try split
    all_goals try split
    all_goals try split
    all_goals try split
    all_goals simp

/-- `onBalanceClick` satisfies the shared frame. -/
theorem onBalanceClick_frame (st : App3State) :
    Frame3 st (onBalanceClick st).1 := by
  simp only [onBalanceClick, Frame3]
  split <;> [simp; split <;> simp]

/-- Eliminate `runEffect3`: it only ever appends one captured-step timer,
and only when the active step's validator holds. -/
theorem runEffect3_elim (st st' : App3State) (h : runEffect3 st = some st') :
    st'.sim = st.sim ∧ st'.currentStep = st.currentStep ∧
    (st'.pending = st.pending ∨ (st'.pending = st.pending ++ [st.currentStep] ∧
      (PROCEDURE[st.currentStep]?).map (fun p => p.validate st.sim) = some true)) := by
  simp only [runEffect3] at h
  rcases hL : PROCEDURE[st.currentStep]? with _ | step <;> simp only [hL] at h
  · exact absurd h (by simp)
  · split at h
    · simp only [Option.some.injEq] at h
      subst h
      next hv => exact ⟨rfl, rfl, Or.inr ⟨rfl, by simp [hL, hv]⟩⟩
    · simp only [Option.some.injEq] at h
      subst h
      exact ⟨rfl, rfl, Or.inl rfl⟩

/-- Frame properties of one processed 3D event: the step pointer is
untouched, the one-way flags are never cleared, and at most one advance
timer is scheduled — capturing the current step, and only when that
step's validator holds on the post-event state. -/
theorem process3_frame (e : E3) (st st' : App3State) (h : process3 e st = some st') :
    st'.currentStep = st.currentStep ∧
    (st'.pending = st.pending ∨ (st'.pending = st.pending ++ [st.currentStep] ∧
      (PROCEDURE[st.currentStep]?).map (fun p => p.validate st'.sim) = some true)) ∧
    (st.sim.wearingLabCoat = true → st'.sim.wearingLabCoat = true) ∧
    (st.sim.wearingGoggles = true → st'.sim.wearingGoggles = true) ∧
    (st.sim.balanceCalibrated = true → st'.sim.balanceCalibrated = true) ∧
    (st.sim.wasteDisposed = true → st'.sim.wasteDisposed = true) := by
  have key : ∀ (st1 : App3State) (b : Bool), Frame3 st st1 →
      (if b then runEffect3 st1 else some st1) = some st' →
      st'.currentStep = st.currentStep ∧
      (st'.pending = st.pending ∨ (st'.pending = st.pending ++ [st.currentStep] ∧
        (PROCEDURE[st.currentStep]?).map (fun p => p.validate st'.sim) = some true)) ∧
      (st.sim.wearingLabCoat = true → st'.sim.wearingLabCoat = true) ∧
      (st.sim.wearingGoggles = true → st'.sim.wearingGoggles = true) ∧
      (st.sim.balanceCalibrated = true → st'.sim.balanceCalibrated = true) ∧
      (st.sim.wasteDisposed = true → st'.sim.wasteDisposed = true) := by
    intro st1 b hf hb
    obtain ⟨hstep, hpend, h3, h4, h5, h6⟩ := hf
    cases b with
    | false =>
        simp only [if_neg Bool.false_ne_true, Option.some.injEq] at hb
        subst hb
        exact ⟨hstep, Or.inl hpend, h3, h4, h5, h6⟩
    | true =>
        simp only [if_pos rfl] at hb
        obtain ⟨hsim, hstep', hpend'⟩ := runEffect3_elim st1 st' hb
        refine ⟨hstep' ▸ hstep, ?_, fun hh => hsim ▸ h3 hh, fun hh => hsim ▸ h4 hh,
          fun hh => hsim ▸ h5 hh, fun hh => hsim ▸ h6 hh⟩
        rcases hpend' with h' | ⟨h', hv⟩
        · exact Or.inl (h' ▸ hpend)
        · refine Or.inr ⟨by rw [h', hpend, hstep], ?_⟩
          rw [hstep] at hv
          rw [hsim]
          exact hv
  cases e with
  | wearLabCoat =>
      rcases hP : handleWearLabCoat st with ⟨st1, b⟩
      have hf := handleWearLabCoat_frame st
      rw [hP] at hf
      simp only [process3, hP] at h
      exact key st1 b hf h
  | wearGoggles =>
      rcases hP : handleWearGoggles st with ⟨st1, b⟩
      have hf := handleWearGoggles_frame st
      rw [hP] at hf
      simp only [process3, hP] at h
      exact key st1 b hf h
  | pointerDown o =>
      rcases hP : onPointerDown o st with ⟨st1, b⟩
      have hf := onPointerDown_frame o st
      rw [hP] at hf
      simp only [process3, hP] at h
      exact key st1 b hf h
  | pointerUp a bb c d =>
      rcases hP : onPointerUp a bb c d st with ⟨st1, b⟩
      have hf := onPointerUp_frame a bb c d st
      rw [hP] at hf
      simp only [process3, hP] at h
      exact key st1 b hf h
  | balanceClick =>
      rcases hP : onBalanceClick st with ⟨st1, b⟩
      have hf := onBalanceClick_frame st
      rw [hP] at hf
      simp only [process3, hP] at h
      exact key st1 b hf h

/-- Firing a 3D advance timer: the step either stays (completion branch)
or increments, and `simState` is untouched. -/
theorem fire3_frame (st st' : App3State) (h : fire3 st = some st') :
    (st'.currentStep = st.currentStep ∨ st'.currentStep = st.currentStep + 1) ∧
    st'.sim = st.sim := by
  simp only [fire3] at h
  rcases hp : st.pending with _ | ⟨c, rest⟩ <;> simp only [hp] at h
  · exact absurd h (by simp)
  · split at h <;>
      (simp only [Option.some.injEq] at h
       subst h
       simp)

/-- Step-pointer monotonicity along any 3D trace (the 3D simulation has
no reset operation at all). -/
theorem run3_mono (tr : List T3Step) (st st' : App3State)
    (h : run3 tr st = some st') : st.currentStep ≤ st'.currentStep := by
  induction tr generalizing st with
  | nil => simp only [run3, Option.some.injEq] at h; rw [h]
  | cons hd tl ih =>
      cases hd with
      | ev e =>
          simp only [run3, Option.bind_eq_some] at h
          obtain ⟨st1, h1, h2⟩ := h
          exact le_of_eq (process3_frame e st st1 h1).1.symm |>.trans (ih st1 h2)
      | fire =>
          simp only [run3, Option.bind_eq_some] at h
          obtain ⟨st1, h1, h2⟩ := h
          rcases (fire3_frame st st1 h1).1 with h' | h'
          · exact le_of_eq h'.symm |>.trans (ih st1 h2)
          · exact (Nat.le_succ _).trans (le_of_eq h'.symm) |>.trans (ih st1 h2)

/-! ### Non-matching events (rejection paths) -/

/-- The success condition of `handleCreateSmear` as read by the click
delegation. -/
def smearClickSucceeds (s : SimState) : Prop :=
  s.activeTool = some "spreader_slide" ∧ s.slideHasBlood = true ∧
  (labProcedureSteps[s.currentStep]?).map StepDef.id = some "perform_smear"

/-- An interaction event that does not satisfy the active step's required
action, following the engine's own validation paths (the branches that
set incorrect feedback or do nothing).  Events the engine treats as
satisfying (including any click at the auto-advance step and any quiz
completion at the MCQ step) are excluded, as is the explicit reset
operation. -/
def nonMatching : SEvent → SimState → Prop
  | SEvent.dragStart toolId, s =>
      ¬ ((labProcedureSteps[s.currentStep]?).map StepDef.tool = some (some toolId) ∧
         (labProcedureSteps[s.currentStep]?).map StepDef.action =
           some (some "use_tool_on_target"))
  | SEvent.drop targetId, s =>
      s.activeTool = none ∨
      (∃ toolId cp, s.activeTool = some toolId ∧
        labProcedureSteps[s.currentStep]? = some cp ∧
        ¬ (cp.action = some "use_tool_on_target" ∧ cp.tool = some toolId ∧
           cp.target = some targetId ∧
           (cp.id = "clean_finger" ∨ cp.id = "apply_lancet" ∨
            ((cp.id = "wipe_blood" ∨ cp.id = "collect_blood_on_slide") ∧
              s.bloodDropVisible = true))))
  | SEvent.click o, s =>
      ∃ cp, labProcedureSteps[s.currentStep]? = some cp ∧
        ((cp.action = some "pick_up_tool" ∧ ¬ (some o : Option String) = cp.target) ∨
         (cp.action = some "next_step_button" ∧ o ≠ "next_button") ∨
         (cp.action = some "click_create_smear" ∧
           (o ≠ "create_smear_button" ∨ ¬ smearClickSucceeds s)) ∨
         (cp.action = some "view_microscope" ∧ o ≠ "microscope_icon") ∨
         cp.action = some "mcq_handled_internally" ∨
         cp.action = some "use_tool_on_target" ∨
         cp.action = none)
  | SEvent.startSim, s => s.currentStep ≠ 0
  | SEvent.closeMicroscope, s => s.showMicroscopeView = false
  | SEvent.quizComplete _, s =>
      ¬ (labProcedureSteps[s.currentStep]?).map StepDef.id = some "mcq_challenge"
  | SEvent.reset, _ => False

/-- `handleDrop` with no tool held takes the early-return rejection. -/
theorem handleDrop_noTool (targetId : String) (s : SimState)
    (h : s.activeTool = none) :
    handleDrop targetId s =
      some ({ s with isCorrectAction := some false }, [(3000, TimerAct.clear)]) := by
  simp only [handleDrop, h]

/-- `handleDrop` with a held tool rejects whenever the step/tool/target
validation or the per-step blood-drop precondition fails. -/
theorem handleDrop_reject (targetId : String) (s : SimState) (toolId : String)
    (cp : StepDef) (hA : s.activeTool = some toolId)
    (hL : labProcedureSteps[s.currentStep]? = some cp)
    (hfail : ¬ (cp.action = some "use_tool_on_target" ∧ cp.tool = some toolId ∧
      cp.target = some targetId ∧
      (cp.id = "clean_finger" ∨ cp.id = "apply_lancet" ∨
       ((cp.id = "wipe_blood" ∨ cp.id = "collect_blood_on_slide") ∧
         s.bloodDropVisible = true)))) :
    handleDrop targetId s =
      some ({ s with isCorrectAction := some false, activeTool := none },
        [(3000, TimerAct.clear)]) := by
  simp only [handleDrop, hA, hL]
  split
  · next hcond =>
      obtain ⟨h1, h2, h3⟩ := hcond
      split
      · next hid => exact absurd ⟨h1, h2, h3, Or.inl hid⟩ hfail
      · split
        · next hid => exact absurd ⟨h1, h2, h3, Or.inr (Or.inl hid)⟩ hfail
        · split
          · next hid =>
              split
              · next hb =>
                  exact absurd ⟨h1, h2, h3, Or.inr (Or.inr ⟨Or.inl hid, hb⟩)⟩ hfail
              · rfl
          · split
            · next hid =>
                split
                · next hb =>
                    exact absurd ⟨h1, h2, h3, Or.inr (Or.inr ⟨Or.inr hid, hb⟩)⟩ hfail
                · rfl
            · rfl
  · rfl

/-- One processed non-matching event: it is accepted by the engine
without crashing, produces at most a feedback-clear timeout (never a
delayed advance), leaves flags, score and the step pointer unchanged —
and the event is still non-matching afterwards, so the rejection can be
repeated indefinitely. -/
theorem processEvent_nonMatching (e : SEvent) (s : SimState) (h : nonMatching e s) :
    ∃ s' ts, processEvent e s = some (s', ts) ∧
      s'.currentStep = s.currentStep ∧ s'.score = s.score ∧
      s'.bloodDropVisible = s.bloodDropVisible ∧
      s'.slideHasBlood = s.slideHasBlood ∧
      s'.smearQuality = s.smearQuality ∧
      s'.showMicroscopeView = s.showMicroscopeView ∧
      (∀ p ∈ ts, p.2 = TimerAct.clear) ∧
      nonMatching e s' := by
  cases e with
  | dragStart toolId =>
      have heq := handleDragStart_neg toolId s h
      refine ⟨{ s with isCorrectAction := some false }, [(3000, TimerAct.clear)],
        ?_, rfl, rfl, rfl, rfl, rfl, rfl, by simp, h⟩
      simp only [processEvent, heq]
  | drop targetId =>
      rcases h with hnone | ⟨toolId, cp, hA, hL, hfail⟩
      · refine ⟨{ s with isCorrectAction := some false }, [(3000, TimerAct.clear)],
          ?_, rfl, rfl, rfl, rfl, rfl, rfl, by simp, Or.inl hnone⟩
        simp only [processEvent, handleDrop_noTool targetId s hnone]
      · refine ⟨{ s with isCorrectAction := some false, activeTool := none },
          [(3000, TimerAct.clear)], ?_, rfl, rfl, rfl, rfl, rfl, rfl, by simp,
          Or.inl rfl⟩
        simp only [processEvent, handleDrop_reject targetId s toolId cp hA hL hfail]
  | click o =>
      obtain ⟨cp, hL, hdisj⟩ := h
      rcases hdisj with ⟨hac, hne⟩ | ⟨hac, hne⟩ | ⟨hac, hne⟩ | ⟨hac, hne⟩ | hac | hac | hac
      · -- pick_up_tool, wrong object
        refine ⟨{ s with isCorrectAction := some false }, [(3000, TimerAct.clear)],
          ?_, rfl, rfl, rfl, rfl, rfl, rfl, by simp,
          ⟨cp, hL, Or.inl ⟨hac, hne⟩⟩⟩
        simp only [processEvent, handleAction, hL]
        rw [if_pos hac, if_neg hne]
      · -- next_step_button, wrong object
        refine ⟨{ s with isCorrectAction := some false }, [(3000, TimerAct.clear)],
          ?_, rfl, rfl, rfl, rfl, rfl, rfl, by simp,
          ⟨cp, hL, Or.inr (Or.inl ⟨hac, hne⟩)⟩⟩
        simp only [processEvent, handleAction, hL]
        rw [if_neg (by rw [hac]; decide), if_pos hac,
          if_neg (by simp [hne])]
      · -- click_create_smear: wrong object, or failing smear conditions
        rcases hne with ho | hno
        · refine ⟨{ s with isCorrectAction := none }, [],
            ?_, rfl, rfl, rfl, rfl, rfl, rfl, by simp,
            ⟨cp, hL, Or.inr (Or.inr (Or.inl ⟨hac, Or.inl ho⟩))⟩⟩
          simp only [processEvent, handleAction, hL]
          rw [if_neg (by rw [hac]; decide), if_neg (by rw [hac]; decide),
            if_neg (by rw [hac]; decide), if_pos hac, if_neg (by simp [ho])]
        · have hno' : ¬ (({ s with isCorrectAction := none } : SimState).activeTool =
              some "spreader_slide" ∧
              ({ s with isCorrectAction := none } : SimState).slideHasBlood = true ∧
              (labProcedureSteps[({ s with isCorrectAction := none } :
                SimState).currentStep]?).map StepDef.id = some "perform_smear") := hno
          by_cases hob : (some o : Option String) = some "create_smear_button"
          · refine ⟨{ s with isCorrectAction := some false }, [(3000, TimerAct.clear)],
              ?_, rfl, rfl, rfl, rfl, rfl, rfl, by simp,
              ⟨cp, hL, Or.inr (Or.inr (Or.inl ⟨hac, Or.inr hno⟩))⟩⟩
            simp only [processEvent, handleAction, hL]
            rw [if_neg (by rw [hac]; decide), if_neg (by rw [hac]; decide),
              if_neg (by rw [hac]; decide), if_pos hac, if_pos hob,
              handleCreateSmear_neg _ hno']
          · refine ⟨{ s with isCorrectAction := none }, [],
              ?_, rfl, rfl, rfl, rfl, rfl, rfl, by simp,
              ⟨cp, hL, Or.inr (Or.inr (Or.inl ⟨hac, Or.inr hno⟩))⟩⟩
            simp only [processEvent, handleAction, hL]
            rw [if_neg (by rw [hac]; decide), if_neg (by rw [hac]; decide),
              if_neg (by rw [hac]; decide), if_pos hac, if_neg hob]
      · -- view_microscope, wrong object
        refine ⟨{ s with isCorrectAction := none }, [],
          ?_, rfl, rfl, rfl, rfl, rfl, rfl, by simp,
          ⟨cp, hL, Or.inr (Or.inr (Or.inr (Or.inl ⟨hac, hne⟩)))⟩⟩
        simp only [processEvent, handleAction, hL]
        rw [if_neg (by rw [hac]; decide), if_neg (by rw [hac]; decide),
          if_neg (by rw [hac]; decide), if_neg (by rw [hac]; decide),
          if_pos hac, if_neg (by simp [hne])]
      · -- mcq_handled_internally: early return, no mutation
        refine ⟨{ s with isCorrectAction := none }, [],
          ?_, rfl, rfl, rfl, rfl, rfl, rfl, by simp,
          ⟨cp, hL, Or.inr (Or.inr (Or.inr (Or.inr (Or.inl hac))))⟩⟩
        simp only [processEvent, handleAction, hL]
        rw [if_neg (by rw [hac]; decide), if_neg (by rw [hac]; decide),
          if_neg (by rw [hac]; decide), if_neg (by rw [hac]; decide),
          if_neg (by rw [hac]; decide), if_pos hac]
      · -- a click during a use_tool_on_target step: switch default
        refine ⟨{ s with isCorrectAction := some false }, [(3000, TimerAct.clear)],
          ?_, rfl, rfl, rfl, rfl, rfl, rfl, by simp,
          ⟨cp, hL, Or.inr (Or.inr (Or.inr (Or.inr (Or.inr (Or.inl hac)))))⟩⟩
        simp only [processEvent, handleAction, hL]
        rw [if_neg (by rw [hac]; decide), if_neg (by rw [hac]; decide),
          if_neg (by rw [hac]; decide), if_neg (by rw [hac]; decide),
          if_neg (by rw [hac]; decide), if_neg (by rw [hac]; decide)]
      · -- a step with no action (intro / final completion): switch default
        refine ⟨{ s with isCorrectAction := some false }, [(3000, TimerAct.clear)],
          ?_, rfl, rfl, rfl, rfl, rfl, rfl, by simp,
          ⟨cp, hL, Or.inr (Or.inr (Or.inr (Or.inr (Or.inr (Or.inr hac)))))⟩⟩
        simp only [processEvent, handleAction, hL]
        rw [if_neg (by rw [hac]; decide), if_neg (by rw [hac]; decide),
          if_neg (by rw [hac]; decide), if_neg (by rw [hac]; decide),
          if_neg (by rw [hac]; decide), if_neg (by rw [hac]; decide)]
  | startSim =>
      refine ⟨s, [], ?_, rfl, rfl, rfl, rfl, rfl, rfl, by simp, h⟩
      simp only [processEvent, startSimulationClick, if_neg h]
  | closeMicroscope =>
      have h' : s.showMicroscopeView = false := h
      refine ⟨s, [], ?_, rfl, rfl, rfl, rfl, rfl, rfl, by simp, h⟩
      simp only [processEvent, closeMicroscopeClick]
      rw [if_neg (by simp [h'])]
  | quizComplete b =>
      refine ⟨s, [], ?_, rfl, rfl, rfl, rfl, rfl, rfl, by simp, h⟩
      simp only [processEvent, onQuizComplete, if_neg h]
  | reset => exact absurd h not_false

/-- Repeated processing of one event, accumulating all scheduled
timeouts. -/
def processIter (e : SEvent) : Nat → SimState → Option (SimState × List (Nat × TimerAct))
  | 0, s => some (s, [])
  | n + 1, s =>
      match processEvent e s with
      | none => none
      | some (s', ts) =>
          (processIter e n s').map (fun p => (p.1, ts ++ p.2))

/-! ### Claim theorems -/

/-- C1: for every step whose required action is `use_tool_on_target`
(UseToolOnTarget), a drop event on that step is rejected — incorrect
feedback, no flag/score/step mutation, and only the 3000 ms feedback
clear scheduled (so no step advance) — unless a prior unconsumed pick-up
set `activeTool` to the step's tool; in particular a drop while
`activeTool` is null is always rejected. -/
theorem c1_drop_rejected_without_matching_pickup :
    (∀ (s : SimState) (cp : StepDef) (targetId : String),
      labProcedureSteps[s.currentStep]? = some cp →
      cp.action = some "use_tool_on_target" →
      s.activeTool ≠ cp.tool →
      ∃ s', handleDrop targetId s = some (s', [(3000, TimerAct.clear)]) ∧
        s'.isCorrectAction = some false ∧ s'.currentStep = s.currentStep ∧
        s'.score = s.score ∧ s'.bloodDropVisible = s.bloodDropVisible ∧
        s'.slideHasBlood = s.slideHasBlood ∧ s'.smearQuality = s.smearQuality) ∧
    (∀ (s : SimState) (targetId : String), s.activeTool = none →
      ∃ s', handleDrop targetId s = some (s', [(3000, TimerAct.clear)]) ∧
        s'.isCorrectAction = some false ∧ s'.currentStep = s.currentStep ∧
        s'.score = s.score ∧ s'.bloodDropVisible = s.bloodDropVisible ∧
        s'.slideHasBlood = s.slideHasBlood ∧ s'.smearQuality = s.smearQuality) := by
  constructor
  · intro s cp targetId hstep hact htool
    unfold handleDrop
    rcases h : s.activeTool with _ | toolId
    · refine ⟨{ s with isCorrectAction := some false }, ?_, rfl, rfl, rfl, rfl, rfl, rfl⟩
      simp only [show ({ s with isCorrectAction := none } : SimState).activeTool
          = s.activeTool from rfl, h]
    · have hcond : ¬ (cp.action = some "use_tool_on_target" ∧ cp.tool = some toolId ∧
          cp.target = some targetId) := by
        rintro ⟨-, h2, -⟩
        exact htool (h ▸ h2.symm ▸ rfl)
      refine ⟨{ s with isCorrectAction := some false, activeTool := none }, ?_,
        rfl, rfl, rfl, rfl, rfl, rfl⟩
      simp only [show ({ s with isCorrectAction := none } : SimState).activeTool
          = s.activeTool from rfl, h,
        show ({ s with isCorrectAction := none } : SimState).currentStep
          = s.currentStep from rfl, hstep]
      rw [if_neg hcond]
  · intro s targetId h
    unfold handleDrop
    refine ⟨{ s with isCorrectAction := some false }, ?_, rfl, rfl, rfl, rfl, rfl, rfl⟩
    simp only [show ({ s with isCorrectAction := none } : SimState).activeTool
        = s.activeTool from rfl, h]

/-- Witness for C1: at the `clean_finger` step (index 2) with the lancet
held instead of the alcohol swab, and on a fresh state with no tool held,
a drop on the finger is rejected. -/
theorem c1_witness :
    (∃ s', handleDrop "finger"
        { initSimState with currentStep := 2, activeTool := some "lancet" } =
        some (s', [(3000, TimerAct.clear)]) ∧
      s'.isCorrectAction = some false ∧ s'.currentStep = 2 ∧
      s'.score = 0 ∧ s'.bloodDropVisible = false ∧
      s'.slideHasBlood = false ∧ s'.smearQuality = none) ∧
    (∃ s', handleDrop "finger" initSimState = some (s', [(3000, TimerAct.clear)]) ∧
      s'.isCorrectAction = some false ∧ s'.currentStep = 0 ∧
      s'.score = 0 ∧ s'.bloodDropVisible = false ∧
      s'.slideHasBlood = false ∧ s'.smearQuality = none) :=
  ⟨c1_drop_rejected_without_matching_pickup.1
      { initSimState with currentStep := 2, activeTool := some "lancet" }
      { id := "clean_finger", action := some "use_tool_on_target",
        tool := some "alcohol_swab", target := some "finger",
        nextStep := some "prick_finger" }
      "finger" (by decide) (by decide) (by decide),
    c1_drop_rejected_without_matching_pickup.2 initSimState "finger" rfl⟩

/-- C2: processing an interaction event that does not satisfy the active
step's required action leaves the flags (`bloodDropVisible`,
`slideHasBlood`, `smearQuality`, `showMicroscopeView`), the score and
the current step index unchanged, schedules only feedback-clear timeouts
(never a delayed advance), and this holds across any number of
repetitions of the non-matching event. -/
theorem c2_idempotent_rejection (e : SEvent) (s : SimState) (n : Nat)
    (h : nonMatching e s) :
    ∃ s' ts, processIter e n s = some (s', ts) ∧
      s'.currentStep = s.currentStep ∧ s'.score = s.score ∧
      s'.bloodDropVisible = s.bloodDropVisible ∧
      s'.slideHasBlood = s.slideHasBlood ∧
      s'.smearQuality = s.smearQuality ∧
      s'.showMicroscopeView = s.showMicroscopeView ∧
      (∀ p ∈ ts, p.2 = TimerAct.clear) := by
  induction n generalizing s with
  | zero => exact ⟨s, [], rfl, rfl, rfl, rfl, rfl, rfl, rfl, by simp⟩
  | succ n ih =>
      obtain ⟨s1, ts1, hp, e1, e2, e3, e4, e5, e6, hcl, hnm⟩ :=
        processEvent_nonMatching e s h
      obtain ⟨s', ts', hit, f1, f2, f3, f4, f5, f6, fcl⟩ := ih s1 hnm
      refine ⟨s', ts1 ++ ts', ?_, f1.trans e1, f2.trans e2, f3.trans e3,
        f4.trans e4, f5.trans e5, f6.trans e6, ?_⟩
      · simp only [processIter, hp, hit, Option.map_some']
      · intro p hp'
        rcases List.mem_append.1 hp' with h' | h'
        · exact hcl p h'
        · exact fcl p h'

/-- Witness for C2: three repetitions of a drop with no tool held on the
fresh state. -/
theorem c2_witness :
    nonMatching (SEvent.drop "finger") initSimState ∧
    (∃ s' ts, processIter (SEvent.drop "finger") 3 initSimState = some (s', ts) ∧
      s'.currentStep = initSimState.currentStep ∧ s'.score = initSimState.score ∧
      s'.bloodDropVisible = initSimState.bloodDropVisible ∧
      s'.slideHasBlood = initSimState.slideHasBlood ∧
      s'.smearQuality = initSimState.smearQuality ∧
      s'.showMicroscopeView = initSimState.showMicroscopeView ∧
      (∀ p ∈ ts, p.2 = TimerAct.clear)) :=
  ⟨Or.inl rfl,
    c2_idempotent_rejection (SEvent.drop "finger") initSimState 3 (Or.inl rfl)⟩

/-- C4: along every trace of interaction events and timer firings without
`reset()`, the smear simulation's step pointer never decreases; the 3D
simulation's step pointer never decreases along any trace (it has no
reset operation); and only `reset()` returns the smear step to its
initial value 0. -/
theorem c4_monotonic_progress :
    (∀ (tr : List TStep) (m m' : SMachine),
      (∀ t, TStep.ev t SEvent.reset ∉ tr) →
      runTrace tr m = some m' → m.sim.currentStep ≤ m'.sim.currentStep) ∧
    (∀ (tr : List T3Step) (st st' : App3State),
      run3 tr st = some st' → st.currentStep ≤ st'.currentStep) ∧
    (∀ s : SimState, (resetSimulation s).currentStep = 0) :=
  ⟨runTrace_mono, run3_mono, fun _ => rfl⟩

/-- Witness for C4: the start-button trace advances the smear step from 0
to 1, and the lab-coat event leaves the 3D step at 0. -/
theorem c4_witness :
    (∀ t, TStep.ev t SEvent.reset ∉ [TStep.ev 0 SEvent.startSim]) ∧
    runTrace [TStep.ev 0 SEvent.startSim] initSMachine =
      some { sim := { initSimState with currentStep := 1 }, now := 0,
             timers := [], autoTimer := none } ∧
    initSMachine.sim.currentStep ≤
      ({ sim := { initSimState with currentStep := 1 }, now := 0,
         timers := [], autoTimer := none } : SMachine).sim.currentStep ∧
    (∃ st', run3 [T3Step.ev E3.wearLabCoat] init3 = some st' ∧
      init3.currentStep ≤ st'.currentStep) :=
  ⟨fun t => by simp, by decide,
    c4_monotonic_progress.1 [TStep.ev 0 SEvent.startSim] initSMachine
      { sim := { initSimState with currentStep := 1 }, now := 0,
        timers := [], autoTimer := none } (fun t => by simp) (by decide),
    ⟨{ init3 with
        sim := { init3.sim with wearingLabCoat := true },
        feedback := "Lab coat worn." }, by decide,
      c4_monotonic_progress.2.1 [T3Step.ev E3.wearLabCoat] init3
        { init3 with
            sim := { init3.sim with wearingLabCoat := true },
            feedback := "Lab coat worn." } (by decide)⟩⟩

/-- C10: in every state of the blood-smear simulation reachable from
startup by any trace of events and timer firings, `smearQuality` is
either `null` or `'good'` (`handleCreateSmear` hard-codes `'good'`, so
`'too_thick'` and `'too_thin'` are unreachable), and `reset()` returns
`smearQuality` to `null`. -/
theorem c10_smear_quality_only_null_or_good :
    (∀ (tr : List TStep) (m' : SMachine), runTrace tr initSMachine = some m' →
      m'.sim.smearQuality = none ∨ m'.sim.smearQuality = some "good") ∧
    (∀ s : SimState, (resetSimulation s).smearQuality = none) :=
  ⟨fun tr m' h => runTrace_quality tr initSMachine m' (Or.inl rfl) h,
    fun _ => rfl⟩

/-- Witness for C10: the empty trace stays at the startup state, whose
smear quality is `null`. -/
theorem c10_witness :
    runTrace [] initSMachine = some initSMachine ∧
    (initSMachine.sim.smearQuality = none ∨
      initSMachine.sim.smearQuality = some "good") :=
  ⟨rfl, c10_smear_quality_only_null_or_good.1 [] initSMachine rfl⟩

/-- C3 counterexample: pick up the alcohol swab (scheduling the 1500 ms
delayed advance), then `reset()` at time 2; the stale advance timer fires
at time 1501 and moves `currentStep` from its freshly reset value 0 to 1,
so a timer scheduled before the reset does mutate state afterwards. -/
theorem c3_counterexample_stale_timer :
    runTrace [TStep.ev 0 SEvent.startSim, TStep.ev 1 (SEvent.click "alcohol_swab"),
        TStep.ev 2 SEvent.reset, TStep.fire] initSMachine =
      some { sim := { initSimState with currentStep := 1 }, now := 1501,
             timers := [], autoTimer := none } ∧
    initSimState.currentStep = 0 ∧ (1 : Nat) ≠ 0 := by
  refine ⟨by decide, rfl, by decide⟩

/-- C3 amended: `reset()` restores every state field to its startup value
and (via the effect cleanup) cancels the pending auto-advance dwell
timer, but it does not invalidate pending `setTimeout`s: a stale
feedback-clear timer is a no-op apart from clearing feedback, while a
stale delayed-advance timer increments the step pointer when it fires. -/
theorem c3_amended_reset_completeness :
    (∀ (m : SMachine) (t : Nat), applyUser t SEvent.reset m =
      some { sim := initSimState, now := t, timers := m.timers, autoTimer := none }) ∧
    (∀ s : SimState, fireTimerAct TimerAct.clear s = { s with isCorrectAction := none }) ∧
    (∀ s : SimState, fireTimerAct TimerAct.advance s =
      { s with currentStep := s.currentStep + 1, isCorrectAction := none }) := by
  refine ⟨fun m t => ?_, fun s => rfl, fun s => rfl⟩
  simp [applyUser, processEvent, resetSimulation, autoEffect, stepIsAuto,
    labProcedureSteps, initSimState]

/-- C9 counterexample: a create-smear attempt that fails (here: at the
`perform_smear` step with the spreader slide held but no blood on the
slide) leaves `activeTool` holding the spreader slide instead of
clearing it to null. -/
theorem c9_counterexample_failed_smear_keeps_tool :
    (handleCreateSmear
        { initSimState with
            currentStep := 11,
            activeTool := some "spreader_slide" }).1.activeTool =
      some "spreader_slide" ∧
    some "spreader_slide" ≠ (none : Option String) :=
  ⟨rfl, by decide⟩

/-- C9 amended: every processed drop leaves `activeTool` null afterwards
(whether it succeeded or failed), but a resolved create-smear clears
`activeTool` only when it succeeds; a failed create-smear leaves
`activeTool` unchanged. -/
theorem c9_amended_active_tool_clearing :
    (∀ (targetId : String) (s s' : SimState) (ts : List (Nat × TimerAct)),
      handleDrop targetId s = some (s', ts) → s'.activeTool = none) ∧
    (∀ s : SimState, (handleCreateSmear s).1.isCorrectAction = some true →
      (handleCreateSmear s).1.activeTool = none) ∧
    (∀ s : SimState, (handleCreateSmear s).1.isCorrectAction = some false →
      (handleCreateSmear s).1.activeTool = s.activeTool) := by
  refine ⟨fun targetId s s' ts h => (handleDrop_frame targetId s s' ts h).2.2.2.1,
    fun s h => ?_, fun s h => ?_⟩
  · by_cases hc : s.activeTool = some "spreader_slide" ∧ s.slideHasBlood = true ∧
        (labProcedureSteps[s.currentStep]?).map StepDef.id = some "perform_smear"
    · rw [handleCreateSmear_pos s hc]
    · rw [handleCreateSmear_neg s hc] at h
      exact absurd h (by simp)
  · by_cases hc : s.activeTool = some "spreader_slide" ∧ s.slideHasBlood = true ∧
        (labProcedureSteps[s.currentStep]?).map StepDef.id = some "perform_smear"
    · rw [handleCreateSmear_pos s hc] at h
      exact absurd h (by simp)
    · rw [handleCreateSmear_neg s hc]

/-- C5 counterexample: a normal play-through (start, pick up swab, clean
finger, pick up lancet, prick finger — which sets `bloodDropVisible` —
then pick up the swab again) reaches the `wipe_blood` step with
`bloodDropVisible = true`; the validated wipe drop then clears that flag,
although the trace contains no reset. -/
theorem c5_counterexample_interaction_clears_flag :
    (runTrace [TStep.ev 0 SEvent.startSim, TStep.ev 1 (SEvent.click "alcohol_swab"),
        TStep.fire, TStep.ev 1502 (SEvent.drop "finger"), TStep.fire,
        TStep.ev 3003 (SEvent.click "lancet"), TStep.fire,
        TStep.ev 4504 (SEvent.drop "finger"), TStep.fire,
        TStep.ev 6005 (SEvent.click "alcohol_swab"), TStep.fire] initSMachine).map
      (fun m => (m.sim.currentStep, m.sim.bloodDropVisible)) = some (6, true) ∧
    (runTrace [TStep.ev 0 SEvent.startSim, TStep.ev 1 (SEvent.click "alcohol_swab"),
        TStep.fire, TStep.ev 1502 (SEvent.drop "finger"), TStep.fire,
        TStep.ev 3003 (SEvent.click "lancet"), TStep.fire,
        TStep.ev 4504 (SEvent.drop "finger"), TStep.fire,
        TStep.ev 6005 (SEvent.click "alcohol_swab"), TStep.fire,
        TStep.ev 7506 (SEvent.drop "blood_drop")] initSMachine).map
      (fun m => (m.sim.currentStep, m.sim.bloodDropVisible)) = some (6, false) ∧
    (∀ t, TStep.ev t SEvent.reset ∉
      [TStep.ev 0 SEvent.startSim, TStep.ev 1 (SEvent.click "alcohol_swab"),
        TStep.fire, TStep.ev 1502 (SEvent.drop "finger"), TStep.fire,
        TStep.ev 3003 (SEvent.click "lancet"), TStep.fire,
        TStep.ev 4504 (SEvent.drop "finger"), TStep.fire,
        TStep.ev 6005 (SEvent.click "alcohol_swab"), TStep.fire,
        TStep.ev 7506 (SEvent.drop "blood_drop")]) :=
  ⟨by decide, by decide, fun t => by simp⟩

/-- C5 amended: flags start all-false/none and `reset()` restores them;
`slideHasBlood` and a set `smearQuality` are cleared only by reset, and
`bloodDropVisible` is cleared only by reset or by a drop event (the
validated `wipe_blood` / `collect_blood_on_slide` interactions); in the
3D simulation the coat/goggles/calibration/waste flags are never cleared
by any interaction (only the cylinder flags are, by the waste-disposal
release). -/
theorem c5_amended_flag_clearing :
    (initSimState.bloodDropVisible = false ∧ initSimState.slideHasBlood = false ∧
      initSimState.smearQuality = none ∧ initSimState.activeTool = none) ∧
    (∀ s : SimState, resetSimulation s = initSimState) ∧
    (∀ (e : SEvent) (s s' : SimState) (ts : List (Nat × TimerAct)),
      e ≠ SEvent.reset → processEvent e s = some (s', ts) →
      (s.slideHasBlood = true → s'.slideHasBlood = true) ∧
      (s.smearQuality = some "good" → s'.smearQuality = some "good")) ∧
    (∀ (e : SEvent) (s s' : SimState) (ts : List (Nat × TimerAct)),
      (∀ t, e ≠ SEvent.drop t) → e ≠ SEvent.reset →
      processEvent e s = some (s', ts) →
      s.bloodDropVisible = true → s'.bloodDropVisible = true) ∧
    (∀ (e : E3) (st st' : App3State), process3 e st = some st' →
      (st.sim.wearingLabCoat = true → st'.sim.wearingLabCoat = true) ∧
      (st.sim.wearingGoggles = true → st'.sim.wearingGoggles = true) ∧
      (st.sim.balanceCalibrated = true → st'.sim.balanceCalibrated = true) ∧
      (st.sim.wasteDisposed = true → st'.sim.wasteDisposed = true)) := by
  refine ⟨⟨rfl, rfl, rfl, rfl⟩, fun s => rfl, fun e s s' ts hne h => ?_,
    fun e s s' ts hnd hne h => processEvent_blood e s s' ts hnd hne h,
    fun e st st' h => ?_⟩
  · refine ⟨fun hs => processEvent_slide e s s' ts hne h hs, fun hq => ?_⟩
    rcases processEvent_quality e s s' ts h with h' | h' | ⟨he, -⟩
    · rw [h']; exact hq
    · exact h'
    · exact absurd he hne
  · have hf := process3_frame e st st' h
    exact ⟨hf.2.2.1, hf.2.2.2.1, hf.2.2.2.2.1, hf.2.2.2.2.2⟩

/-- Witness for C5 amended: a rejected click at the intro step preserves
blood on the slide. -/
theorem c5_amended_witness :
    (SEvent.click "lancet" ≠ SEvent.reset) ∧
    processEvent (SEvent.click "lancet") { initSimState with slideHasBlood := true } =
      some ({ initSimState with slideHasBlood := true, isCorrectAction := some false },
        [(3000, TimerAct.clear)]) ∧
    (({ initSimState with slideHasBlood := true } : SimState).slideHasBlood = true →
      ({ initSimState with
          slideHasBlood := true,
          isCorrectAction := some false } : SimState).slideHasBlood = true) :=
  ⟨by decide, by decide,
    (c5_amended_flag_clearing.2.2.1 (SEvent.click "lancet")
      { initSimState with slideHasBlood := true }
      { initSimState with slideHasBlood := true, isCorrectAction := some false }
      [(3000, TimerAct.clear)] (by decide) (by decide)).1⟩

/-- C8 counterexample: the validated `apply_lancet` drop applies its flag
mutation (`bloodDropVisible = true`) and score increment (+20, total 30)
immediately, while the step pointer remains at 4 until the 1500 ms
delayed advance fires — an observable state in which part of the
interaction's updates are applied and the step advance is not. -/
theorem c8_counterexample_partial_observable :
    (runTrace [TStep.ev 0 SEvent.startSim, TStep.ev 1 (SEvent.click "alcohol_swab"),
        TStep.fire, TStep.ev 1502 (SEvent.drop "finger"), TStep.fire,
        TStep.ev 3003 (SEvent.click "lancet"), TStep.fire,
        TStep.ev 4504 (SEvent.drop "finger")] initSMachine).map
      (fun m => (m.sim.currentStep, m.sim.bloodDropVisible, m.sim.score)) =
      some (4, true, 30) ∧
    (runTrace [TStep.ev 0 SEvent.startSim, TStep.ev 1 (SEvent.click "alcohol_swab"),
        TStep.fire, TStep.ev 1502 (SEvent.drop "finger"), TStep.fire,
        TStep.ev 3003 (SEvent.click "lancet"), TStep.fire,
        TStep.ev 4504 (SEvent.drop "finger"), TStep.fire] initSMachine).map
      (fun m => (m.sim.currentStep, m.sim.bloodDropVisible, m.sim.score)) =
      some (5, true, 30) :=
  ⟨by decide, by decide⟩

/-- C8 amended: the flag mutations, score increment and feedback of one
resolved drop are applied together in the handler's single state
transition with the step pointer unchanged, and a successful drop
schedules exactly one 1500 ms delayed advance, which — as its own atomic
transition — changes only the step pointer and the feedback. -/
theorem c8_amended_deferred_advance :
    (∀ (targetId : String) (s s' : SimState) (ts : List (Nat × TimerAct)),
      handleDrop targetId s = some (s', ts) →
      s'.currentStep = s.currentStep ∧
      (s'.isCorrectAction = some true → ts = [(1500, TimerAct.advance)])) ∧
    (∀ s : SimState, fireTimerAct TimerAct.advance s =
      { s with currentStep := s.currentStep + 1, isCorrectAction := none }) :=
  ⟨fun targetId s s' ts h =>
    ⟨(handleDrop_frame targetId s s' ts h).1,
      (handleDrop_frame targetId s s' ts h).2.2.2.2.2.2.2⟩,
    fun _ => rfl⟩

/-- Witness for C8 amended: the successful `apply_lancet` drop leaves the
step pointer at 4 and schedules the single delayed advance. -/
theorem c8_amended_witness :
    handleDrop "finger" { initSimState with currentStep := 4, activeTool := some "lancet" } =
      some ({ initSimState with
          currentStep := 4, bloodDropVisible := true, score := 20,
          isCorrectAction := some true }, [(1500, TimerAct.advance)]) ∧
    ({ initSimState with
        currentStep := 4, bloodDropVisible := true, score := 20,
        isCorrectAction := some true } : SimState).currentStep = 4 ∧
    (({ initSimState with
        currentStep := 4, bloodDropVisible := true, score := 20,
        isCorrectAction := some true } : SimState).isCorrectAction = some true →
      [(1500, TimerAct.advance)] = [(1500, TimerAct.advance)]) :=
  ⟨by decide,
    (c8_amended_deferred_advance.1 "finger"
      { initSimState with currentStep := 4, activeTool := some "lancet" }
      { initSimState with
          currentStep := 4, bloodDropVisible := true, score := 20,
          isCorrectAction := some true } [(1500, TimerAct.advance)] (by decide)).1,
    (c8_amended_deferred_advance.1 "finger"
      { initSimState with currentStep := 4, activeTool := some "lancet" }
      { initSimState with
          currentStep := 4, bloodDropVisible := true, score := 20,
          isCorrectAction := some true } [(1500, TimerAct.advance)] (by decide)).2⟩

/-- C6 counterexample: in the 3D simulation, reach step 2 (both wear
flags, balance calibrated), fill the cylinder at the sink, then place it
on the bench — the step-progression effect schedules an advance timer —
and grab the cylinder again before the timer fires, which re-runs the
effect (validator still true) and schedules a second timer.  The two
timers then advance 2 → 3 → 4, so the engine transitions from step 3 to
step 4 although step 3's validator (`cylinderWeighed`) is false. -/
theorem c6_counterexample_double_advance :
    (run3 [T3Step.ev E3.wearLabCoat, T3Step.ev E3.wearGoggles, T3Step.fire,
        T3Step.ev E3.balanceClick, T3Step.fire,
        T3Step.ev (E3.pointerDown "cylinder"),
        T3Step.ev (E3.pointerUp true false false false),
        T3Step.ev (E3.pointerDown "cylinder"),
        T3Step.ev (E3.pointerUp false true false false),
        T3Step.ev (E3.pointerDown "cylinder"),
        T3Step.fire] init3).map
      (fun m => (m.currentStep,
        (PROCEDURE[(3 : Nat)]?).map (fun p => p.validate m.sim))) =
      some (3, some false) ∧
    (run3 [T3Step.ev E3.wearLabCoat, T3Step.ev E3.wearGoggles, T3Step.fire,
        T3Step.ev E3.balanceClick, T3Step.fire,
        T3Step.ev (E3.pointerDown "cylinder"),
        T3Step.ev (E3.pointerUp true false false false),
        T3Step.ev (E3.pointerDown "cylinder"),
        T3Step.ev (E3.pointerUp false true false false),
        T3Step.ev (E3.pointerDown "cylinder"),
        T3Step.fire, T3Step.fire] init3).map
      (fun m => (m.currentStep, m.sim.cylinderWeighed)) = some (4, false) :=
  ⟨by decide, by decide⟩

/-- C6 amended: on the fresh 3D engine, satisfying only one of the two
step-0 flags leaves the step at 0 with no advance scheduled; satisfying
both schedules exactly one advance, which moves the engine to step 1
(with nothing further pending).  In general an advance timer is only
scheduled when the active step's validator holds on the post-event state
— but pending timers are never cancelled, so a stale timer can still
advance a later step whose validator does not hold (see the
counterexample). -/
theorem c6_amended_validated_scheduling :
    ((run3 [T3Step.ev E3.wearLabCoat] init3).map
      (fun m => (m.currentStep, m.pending)) = some (0, [])) ∧
    ((run3 [T3Step.ev E3.wearLabCoat, T3Step.ev E3.wearGoggles, T3Step.fire] init3).map
      (fun m => (m.currentStep, m.pending)) = some (1, [])) ∧
    (∀ (e : E3) (st st' : App3State), process3 e st = some st' →
      st'.pending = st.pending ∨ (st'.pending = st.pending ++ [st.currentStep] ∧
        (PROCEDURE[st.currentStep]?).map (fun p => p.validate st'.sim) = some true)) :=
  ⟨by decide, by decide, fun e st st' h => (process3_frame e st st' h).2.1⟩

/-- Witness for C6 amended: wearing the lab coat on the fresh engine
schedules nothing (the step-0 validator still fails). -/
theorem c6_amended_witness :
    process3 E3.wearLabCoat init3 =
      some { init3 with
          sim := { init3.sim with wearingLabCoat := true },
          feedback := "Lab coat worn." } ∧
    (({ init3 with
        sim := { init3.sim with wearingLabCoat := true },
        feedback := "Lab coat worn." } : App3State).pending = init3.pending ∨
      (({ init3 with
          sim := { init3.sim with wearingLabCoat := true },
          feedback := "Lab coat worn." } : App3State).pending =
          init3.pending ++ [init3.currentStep] ∧
        (PROCEDURE[init3.currentStep]?).map
          (fun p => p.validate ({ init3 with
              sim := { init3.sim with wearingLabCoat := true },
              feedback := "Lab coat worn." } : App3State).sim) = some true)) :=
  ⟨by decide,
    c6_amended_validated_scheduling.2.2 E3.wearLabCoat init3
      { init3 with
          sim := { init3.sim with wearingLabCoat := true },
          feedback := "Lab coat worn." } (by decide)⟩

/-- C7: when the `wait_for_second_drop` AutoAdvance step is active with
its 2000 ms dwell timer pending (and no other pending timeouts), the
machine fires the success path with no external event: the auto timer
fires exactly once — setting `bloodDropVisible` (the second blood drop
appears) and scheduling the 1500 ms advance, which fires before the
rescheduled dwell timer would (1500 < 2000) and moves the engine to the
successor step 8 (`collect_second_drop`), cancelling the dwell timer; no
further timer can fire afterwards. -/
theorem c7_auto_advance_fires_once (m : SMachine) (d : Nat)
    (hstep : m.sim.currentStep = 7) (hauto : m.autoTimer = some d)
    (htimers : m.timers = []) :
    ∃ m1 m2,
      fireNext m = some m1 ∧
      m1.sim.bloodDropVisible = true ∧ m1.sim.currentStep = 7 ∧
      m1.timers = [(d + 1500, TimerAct.advance)] ∧ m1.autoTimer = some (d + 2000) ∧
      fireNext m1 = some m2 ∧
      m2.sim.currentStep = 8 ∧ m2.sim.bloodDropVisible = true ∧
      m2.timers = [] ∧ m2.autoTimer = none ∧ fireNext m2 = none := by
  have hL : labProcedureSteps[m.sim.currentStep]? =
      some { id := "wait_for_second_drop", action := some "auto_advance_blood_drop",
             tool := none, target := none, nextStep := some "collect_second_drop" } := by
    rw [hstep]; rfl
  have hL8 : labProcedureSteps[m.sim.currentStep + 1]? =
      some { id := "collect_second_drop", action := some "pick_up_tool",
             tool := none, target := some "clean_slide",
             nextStep := some "collect_blood_on_slide" } := by
    rw [hstep]; rfl
  have hact : handleAction none m.sim =
      some ({ m.sim with isCorrectAction := none, bloodDropVisible := true },
        [(1500, TimerAct.advance)]) := by
    simp only [handleAction, hL]
    rw [if_neg (by decide), if_neg (by decide)]
    simp only [if_true]
  refine ⟨{ sim := { m.sim with isCorrectAction := none, bloodDropVisible := true },
            now := d, timers := [(d + 1500, TimerAct.advance)],
            autoTimer := some (d + 2000) },
    { sim := { m.sim with
                isCorrectAction := none, bloodDropVisible := true,
                currentStep := m.sim.currentStep + 1 },
      now := d + 1500, timers := [], autoTimer := none },
    ?_, rfl, hstep, rfl, rfl, ?_, by simpa using hstep, rfl, rfl, rfl, ?_⟩
  · simp only [fireNext, htimers, extractEarliest, hauto, fireAuto, hL, hact,
      Option.map_some', List.map_cons, List.map_nil, List.nil_append,
      Option.some.injEq]
    simp [autoEffect, stepIsAuto, hL]
  · simp only [fireNext, extractEarliest]
    rw [if_pos (by omega)]
    simp only [fireListTimer, fireTimerAct, Option.some.injEq]
    simp [autoEffect, stepIsAuto, hL8]
  · rfl

/-- Witness for C7: the machine freshly arrived at the auto-advance step
with its dwell timer set for time 2000. -/
theorem c7_witness :
    ∃ m1 m2,
      fireNext { sim := { initSimState with currentStep := 7 }, now := 0,
                 timers := [], autoTimer := some 2000 } = some m1 ∧
      m1.sim.bloodDropVisible = true ∧ m1.sim.currentStep = 7 ∧
      m1.timers = [(2000 + 1500, TimerAct.advance)] ∧
      m1.autoTimer = some (2000 + 2000) ∧
      fireNext m1 = some m2 ∧
      m2.sim.currentStep = 8 ∧ m2.sim.bloodDropVisible = true ∧
      m2.timers = [] ∧ m2.autoTimer = none ∧ fireNext m2 = none :=
  c7_auto_advance_fires_once
    { sim := { initSimState with currentStep := 7 }, now := 0,
      timers := [], autoTimer := some 2000 } 2000 rfl rfl rfl

/-- Witness for C9 amended: a drop with no held tool on the fresh state
still ends with `activeTool` null. -/
theorem c9_amended_witness :
    handleDrop "finger" initSimState =
      some ({ initSimState with isCorrectAction := some false },
        [(3000, TimerAct.clear)]) ∧
    ({ initSimState with isCorrectAction := some false } : SimState).activeTool = none :=
  ⟨rfl, c9_amended_active_tool_clearing.1 "finger" initSimState
    { initSimState with isCorrectAction := some false } [(3000, TimerAct.clear)] rfl⟩

end MedlabSim
